import Mathlib

/-!
Verification of the field extractor and scrape route of the amazon-scraper
repository (src/server.js, class AmazonScraper and the /api/scrape route).

The document parser (cheerio) is modelled through the interface the
extractor consumes: a CSS-selector query returning zero-or-more nodes in
document order, per-node raw text, attribute lookup by name, and one level
of nested sub-queries (rows looking up their cells, color swatches looking
up a nested img).  Selector strings are opaque keys of that oracle.

JavaScript numbers are modelled by exact rationals: every numeric string
reaching parseFloat in this code is a short decimal literal, for which the
double rounding of the engine and the exact rational agree on the outputs
compared here (toFixed(2) rendering and Math.round of percentages).
-/

/-- Whitespace class used by JavaScript trim and the regex class \s
(restricted to the code points that can occur in this pipeline). -/
def isJsWhitespace (c : Char) : Bool :=
  c = ' ' || c = '\t' || c = '\n' || c = '\r' || c = '\x0b' || c = '\x0c' ||
  c = '\u00A0' || c = '\uFEFF'

/-- Model of String.prototype.trim. -/
def jsTrim (s : String) : String :=
  String.mk (((s.data.dropWhile isJsWhitespace).reverse.dropWhile isJsWhitespace).reverse)

/-- Model of String.prototype.toLowerCase over the character list (the
strings this pipeline lowercases are ASCII). -/
def jsToLower (s : String) : String :=
  String.mk (s.data.map Char.toLower)

/-- Model of String.prototype.includes: substring containment. -/
def strContains (s pat : String) : Bool :=
  s.data.tails.any (fun t => pat.data.isPrefixOf t)

/-- Numeric value of a list of decimal digit characters. -/
def digitsVal (l : List Char) : ℕ :=
  l.foldl (fun a c => 10 * a + (c.toNat - 48)) 0

/-- Decimal part of a parseFloat literal: digits, an optional dot, digits.
Returns the value together with the unconsumed rest; none when no digit was
seen on either side of the dot (parseFloat would yield NaN). -/
def parseDecimalPart (l : List Char) : Option (ℚ × List Char) :=
  let ip := l.takeWhile Char.isDigit
  let r1 := l.dropWhile Char.isDigit
  match r1 with
  | '.' :: r2 =>
    let fp := r2.takeWhile Char.isDigit
    let r3 := r2.dropWhile Char.isDigit
    if ip.isEmpty ∧ fp.isEmpty then none
    else some ((digitsVal ip : ℚ) + (digitsVal fp : ℚ) / (10 : ℚ) ^ fp.length, r3)
  | _ => if ip.isEmpty then none else some ((digitsVal ip : ℚ), r1)

/-- Exponent following the letter e in a parseFloat literal; an exponent
without digits contributes nothing, as in the engine. -/
def parseExpAfterE (l : List Char) : ℤ :=
  let sgn : ℤ := match l with | '-' :: _ => -1 | _ => 1
  let l2 := match l with | '-' :: r => r | '+' :: r => r | _ => l
  let ds := l2.takeWhile Char.isDigit
  if ds.isEmpty then 0 else sgn * (digitsVal ds : ℤ)

/-- Model of the global parseFloat: longest valid decimal-literal prefix
after leading whitespace and an optional sign; none stands for NaN.
Special spellings such as Infinity, unreachable from this code, are not
modelled. -/
def jsParseFloat (s : String) : Option ℚ :=
  let l := s.data.dropWhile isJsWhitespace
  let sgn : ℚ := match l with | '-' :: _ => -1 | _ => 1
  let l2 := match l with | '-' :: r => r | '+' :: r => r | _ => l
  match parseDecimalPart l2 with
  | none => none
  | some (m, rest) =>
    let e : ℤ := match rest with
      | 'e' :: r => parseExpAfterE r
      | 'E' :: r => parseExpAfterE r
      | _ => 0
    some (sgn * m * (10 : ℚ) ^ e)

/-- Hexadecimal digit test for the 0x form accepted by parseInt. -/
def isHexDigit (c : Char) : Bool :=
  c.isDigit || ('a' ≤ c && c ≤ 'f') || ('A' ≤ c && c ≤ 'F')

/-- Value of one hexadecimal digit character. -/
def hexDigitVal (c : Char) : ℕ :=
  if c.isDigit then c.toNat - 48
  else if 'a' ≤ c ∧ c ≤ 'f' then c.toNat - 87
  else c.toNat - 55

/-- Numeric value of a list of hexadecimal digit characters. -/
def hexVal (l : List Char) : ℕ :=
  l.foldl (fun a c => 16 * a + hexDigitVal c) 0

/-- Model of the global parseInt with no radix argument: leading whitespace,
optional sign, then either a 0x-prefixed hexadecimal or a decimal digit run;
none stands for NaN. -/
def jsParseInt (s : String) : Option ℤ :=
  let l := s.data.dropWhile isJsWhitespace
  let sgn : ℤ := match l with | '-' :: _ => -1 | _ => 1
  let l2 := match l with | '-' :: r => r | '+' :: r => r | _ => l
  match l2 with
  | '0' :: x :: r =>
    if x = 'x' ∨ x = 'X' then
      let ds := r.takeWhile isHexDigit
      if ds.isEmpty then none else some (sgn * (hexVal ds : ℤ))
    else
      let ds := l2.takeWhile Char.isDigit
      if ds.isEmpty then none else some (sgn * (digitsVal ds : ℤ))
  | _ =>
    let ds := l2.takeWhile Char.isDigit
    if ds.isEmpty then none else some (sgn * (digitsVal ds : ℤ))

/-- Model of Math.round: round half toward positive infinity. -/
def jsRound (q : ℚ) : ℤ := ⌊q + 1 / 2⌋

/-- Decimal string of an integer, as JavaScript template interpolation
renders an integral number. -/
def intStr (n : ℤ) : String :=
  if n < 0 then "-" ++ toString n.natAbs else toString n.natAbs

/-- Fraction rendered as exactly two digits. -/
def pad2 (m : ℕ) : String :=
  if m < 10 then "0" ++ toString m else toString m

/-- Model of Number.prototype.toFixed(2): nearest hundredth, ties away from
zero, rendered with exactly two decimal places. -/
def toFixed2 (q : ℚ) : String :=
  if q < 0 then
    let m := (jsRound (-q * 100)).toNat
    "-" ++ toString (m / 100) ++ "." ++ pad2 (m % 100)
  else
    let m := (jsRound (q * 100)).toNat
    toString (m / 100) ++ "." ++ pad2 (m % 100)

/-- JavaScript truthy-or on optional strings: undefined and the empty
string fall through to the second operand. -/
def jsOr (a b : Option String) : Option String :=
  match a with
  | some s => if s = "" then b else some s
  | none => b

/-- Character class [A-Z0-9] of the ASIN patterns. -/
def isUpperAlnum (c : Char) : Bool :=
  ('A' ≤ c && c ≤ 'Z') || c.isDigit

/-- Test for the anchored pattern ^[A-Z0-9]{10}$ used on page-provided ASIN
candidates. -/
def isAsinString (s : String) : Bool :=
  s.length = 10 && s.data.all isUpperAlnum

/-- One step of the search for the URL pattern /([A-Z0-9]{10})\/: does the
text right after a slash consist of ten uppercase alphanumerics followed by
another slash. -/
def asinAt (l : List Char) : Bool :=
  (l.take 10).length = 10 && (l.take 10).all isUpperAlnum &&
    (l.drop 10).head? = some '/'

/-- Leftmost match of the regex /\/([A-Z0-9]{10})\// in a character list,
returning the captured ten characters. -/
def findUrlAsin : List Char → Option (List Char)
  | [] => none
  | c :: rest =>
    if c = '/' ∧ asinAt rest then some (rest.take 10) else findUrlAsin rest

/-- Existence of a match of the unanchored regex /\$[\d,]+\.?\d*/ : since
everything after the first class is optional, this is the presence of a
dollar sign directly followed by a digit or comma. -/
def hasPriceToken : List Char → Bool
  | a :: b :: rest => (a = '$' && (b.isDigit || b = ',')) || hasPriceToken (b :: rest)
  | _ => false

/-- Existence of a match of the regex /\d+%/ : a digit directly followed by
a percent sign. -/
def hasDigitPercent : List Char → Bool
  | a :: b :: rest => (a.isDigit && b = '%') || hasDigitPercent (b :: rest)
  | _ => false

/-- Full-string match of the anchored regex /^\$[\d,]+\.?\d*$/ used by the
span price fallback. -/
def spanFullPrice (s : String) : Bool :=
  match s.data with
  | '$' :: rest =>
    let r1 := rest.takeWhile (fun c => c.isDigit || c = ',')
    let r2 := rest.dropWhile (fun c => c.isDigit || c = ',')
    !r1.isEmpty &&
      (match r2 with
       | [] => true
       | '.' :: ds => ds.all Char.isDigit
       | _ => false)
  | _ => false

/-- Case-insensitive literal word match, returning the rest on success. -/
def matchWordCI (w : List Char) (l : List Char) : Option (List Char) :=
  if (l.take w.length).map Char.toLower = w then some (l.drop w.length) else none

/-- Number part \d+\.?\d* of the rating regex at the start of a list,
returning the consumed characters and the rest. -/
def ratingNumAt (l : List Char) : Option (List Char × List Char) :=
  let d1 := l.takeWhile Char.isDigit
  let r1 := l.dropWhile Char.isDigit
  if d1.isEmpty then none
  else
    match r1 with
    | '.' :: r2 =>
      let d2 := r2.takeWhile Char.isDigit
      let r3 := r2.dropWhile Char.isDigit
      some (d1 ++ '.' :: d2, r3)
    | _ => some (d1, r1)

/-- Tail \s*out\s*of\s*5 of the rating regex, case-insensitive. -/
def outOf5After (l : List Char) : Bool :=
  let l1 := l.dropWhile isJsWhitespace
  match matchWordCI "out".data l1 with
  | none => false
  | some l2 =>
    let l3 := l2.dropWhile isJsWhitespace
    match matchWordCI "of".data l3 with
    | none => false
    | some l4 =>
      let l5 := l4.dropWhile isJsWhitespace
      match l5 with
      | '5' :: _ => true
      | _ => false

/-- Leftmost match of /(\d+\.?\d*)\s*out\s*of\s*5/i, returning the first
capture group. -/
def ratingMatch : List Char → Option String
  | [] => none
  | c :: rest =>
    match ratingNumAt (c :: rest) with
    | some (cap, r) => if outOf5After r then some (String.mk cap) else ratingMatch rest
    | none => ratingMatch rest

/-- Leftmost match of /([0-9,]+)/ : the first maximal run of digits and
commas, commas kept. -/
def countMatch : List Char → Option String
  | [] => none
  | c :: rest =>
    if c.isDigit ∨ c = ',' then
      some (String.mk ((c :: rest).takeWhile (fun x => x.isDigit || x = ',')))
    else countMatch rest

/-- Characters stripped away before price arithmetic: the source keeps only
digits and dots (replace of [^0-9.] by the empty string). -/
def stripToNumber (s : String) : String :=
  String.mk (s.data.filter (fun c => c.isDigit || c = '.'))

/-- Leaf node of the one level of nesting the extractor uses: raw text and
attributes, as exposed by the document parser. -/
structure BaseNode where
  text : String := ""
  attrs : List (String × String) := []

/-- Node returned by a top-level selector query: raw text, attributes, a
sub-query for find(), and an oracle for the one place the code parses the
node text as JSON (ldPrice is the stringified offers.price of a parsed
ld+json script when present and truthy, none otherwise). -/
structure Node where
  text : String := ""
  attrs : List (String × String) := []
  children : String → List BaseNode := fun _ => []
  ldPrice : Option String := none

/-- Parsed document: the CSS-selector query oracle consumed from the
document parser, returning matches in document order. -/
structure Doc where
  query : String → List Node

/-- Attribute lookup on a leaf node, none when absent. -/
def BaseNode.attr (n : BaseNode) (name : String) : Option String :=
  (n.attrs.find? (fun p => p.1 == name)).map (fun p => p.2)

/-- Attribute lookup on a node, none when absent. -/
def Node.attr (n : Node) (name : String) : Option String :=
  (n.attrs.find? (fun p => p.1 == name)).map (fun p => p.2)

/-- Concatenated text of a selection, as .text() concatenates over all
matched elements. -/
def concatText (l : List BaseNode) : String :=
  l.foldl (fun a n => a ++ n.text) ""

/-- Trimmed text of the first match of a selector, empty for no match:
the $(sel).first().text().trim() idiom. -/
def firstText (d : Doc) (sel : String) : String :=
  jsTrim (((d.query sel).head?.map Node.text).getD "")

/-- Selector list of extractTitle. -/
def titleSelectors : List String :=
  ["#productTitle", ".product-title", "[data-cy=\"product-title\"]",
   "h1.a-size-large.a-spacing-none", "h1 span"]

/-- First selector with non-empty trimmed text. -/
def firstNonEmptyText (d : Doc) : List String → String
  | [] => ""
  | sel :: rest =>
    let t := firstText d sel
    if t ≠ "" then t else firstNonEmptyText d rest

/-- Model of AmazonScraper.extractTitle. -/
def extractTitle (d : Doc) : String :=
  firstNonEmptyText d titleSelectors

/-- Selector list of extractBrand. -/
def brandSelectors : List String :=
  ["#bylineInfo", ".a-link-normal[href*=\"/stores/\"]", "a[data-brand]",
   ".po-brand .po-break-word", "#brandNameHeading", "[data-cy=\"brand-name\"]"]

/-- Strip of the anchored /^Brand:\s* /i pattern. -/
def stripBrandLabel (s : String) : String :=
  let l := s.data
  if (l.take 6).map Char.toLower = "brand:".data then
    String.mk ((l.drop 6).dropWhile isJsWhitespace)
  else s

/-- Strip of the anchored /^by\s+/i pattern. -/
def stripByLabel (s : String) : String :=
  match s.data with
  | b :: y :: c :: rest =>
    if b.toLower = 'b' ∧ y.toLower = 'y' ∧ isJsWhitespace c then
      String.mk ((c :: rest).dropWhile isJsWhitespace)
    else s
  | _ => s

/-- Character class [a-zA-Z\s&-] of the brand-from-title regex. -/
def brandClassChar (c : Char) : Bool :=
  c.isAlpha || isJsWhitespace c || c = '&' || c = '-'

/-- Lazy scan of the group in /^([A-Z][a-zA-Z\s&-]+?)[\s-]+/ : extend the
group one character at a time and stop at the earliest whitespace-or-hyphen
terminator once the group has at least two characters. -/
def brandScan (c0 : Char) (acc : List Char) : List Char → Option (List Char)
  | [] => none
  | x :: xs =>
    if acc ≠ [] ∧ (isJsWhitespace x ∨ x = '-') then some (c0 :: acc.reverse)
    else if brandClassChar x then brandScan c0 (x :: acc) xs
    else none

/-- Capture of the anchored brand-from-title regex, none when it does not
match. -/
def brandFromTitle (s : String) : Option String :=
  match s.data with
  | [] => none
  | c :: rest => if c.isUpper then (brandScan c [] rest).map String.mk else none

/-- Selector chain of extractBrand: the first candidate whose trimmed text
is non-empty and mentions neither visit nor store returns its text with the
Brand: and by prefixes stripped (the stripped value is returned even when
it is empty). -/
def brandChain (d : Doc) : List String → Option String
  | [] => none
  | sel :: rest =>
    let b := firstText d sel
    if b ≠ "" ∧ ¬ strContains (jsToLower b) "visit" ∧ ¬ strContains (jsToLower b) "store" then
      some (stripByLabel (stripBrandLabel b))
    else brandChain d rest

/-- Model of AmazonScraper.extractBrand. -/
def extractBrand (d : Doc) : String :=
  match brandChain d brandSelectors with
  | some b => b
  | none =>
    let title := extractTitle d
    if title ≠ "" then
      match brandFromTitle title with
      | some m => jsTrim m
      | none => ""
    else ""

/-- Selector list of extractModel. -/
def modelSelectors : List String :=
  [".po-model_name .po-break-word", "[data-cy=\"model-name\"]", "#model_name",
   ".model-name"]

/-- Combined selector of the technical-details fallback of extractModel. -/
def techCombinedSelector : String :=
  "#tech tbody tr, #productDetails_detailBullets_sections1 tbody tr"

/-- First cell of a table row: .find(td:first-child, th:first-child)
concatenated and trimmed. -/
def rowFirstCell (n : Node) : String :=
  jsTrim (concatText (n.children "td:first-child, th:first-child"))

/-- Last cell of a table row as extractModel reads it. -/
def rowLastCell (n : Node) : String :=
  jsTrim (concatText (n.children "td:last-child"))

/-- Value cell of a table row as extractTechnicalData reads it. -/
def rowValueCell (n : Node) : String :=
  jsTrim (concatText (n.children "td:last-child, td:nth-child(2)"))

/-- Scan of the technical-details rows for a model value: the first row
whose lowercased label contains model but not number and whose value is
non-empty and neither N/A nor a dash stops the scan (the .each
callback returns false there); other rows are skipped. -/
def scanModelRows : List Node → String
  | [] => ""
  | row :: rest =>
    let label := jsToLower (rowFirstCell row)
    if strContains label "model" ∧ ¬ strContains label "number" then
      let value := rowLastCell row
      if value ≠ "" ∧ value ≠ "N/A" ∧ value ≠ "-" then value
      else scanModelRows rest
    else scanModelRows rest

/-- Model of AmazonScraper.extractModel. -/
def extractModel (d : Doc) : String :=
  let m := firstNonEmptyText d modelSelectors
  if m ≠ "" then m else scanModelRows (d.query techCombinedSelector)

/-- Selector list of the page-attribute ASIN fallback. -/
def asinSelectors : List String :=
  ["[data-asin]", "#ASIN", "input[name=\"ASIN\"]"]

/-- Page-attribute ASIN chain: attr(value) falling back to attr(data-asin)
on the first match of each selector, accepted when it passes
^[A-Z0-9]{10}$. -/
def asinFromSelectors (d : Doc) : List String → String
  | [] => ""
  | sel :: rest =>
    let node := (d.query sel).head?
    match jsOr (node.bind (fun n => n.attr "value")) (node.bind (fun n => n.attr "data-asin")) with
    | some a => if a ≠ "" ∧ isAsinString a then a else asinFromSelectors d rest
    | none => asinFromSelectors d rest

/-- Model of AmazonScraper.extractASIN: the URL pattern wins; page
attributes are consulted only when the URL yields no match. -/
def extractASIN (d : Doc) (url : String) : String :=
  match findUrlAsin url.data with
  | some s => String.mk s
  | none => asinFromSelectors d asinSelectors

/-- Current/offer price selector chain of extractPricing. -/
def currentPriceSelectors : List String :=
  [".a-price.a-text-normal .a-offscreen", ".a-price-current .a-offscreen",
   ".a-price .a-offscreen", "#apex_desktop .a-price .a-offscreen",
   ".a-price-whole", "#price_inside_buybox", ".a-price-symbol + .a-price-whole"]

/-- Original/was price selector chain of extractPricing. -/
def originalPriceSelectors : List String :=
  [".a-price.a-text-price .a-offscreen", ".a-text-strike .a-offscreen",
   ".a-price-was .a-offscreen", ".a-text-price", "#listPrice .a-offscreen",
   "[data-cy=\"original-price\"]"]

/-- Discount selector chain of extractPricing. -/
def discountSelectors : List String :=
  [".a-badge-text", ".savingsPercentage", ".a-size-large.a-color-price",
   "[data-cy=\"discount-percentage\"]", ".a-text-bold.a-color-price"]

/-- Current-price chain: first selector whose trimmed first-match text is
non-empty and contains a price-shaped token. -/
def chainCurrentPrice (d : Doc) : String :=
  let rec go : List String → String
    | [] => ""
    | sel :: rest =>
      let price := firstText d sel
      if price ≠ "" ∧ hasPriceToken price.data then price else go rest
  go currentPriceSelectors

/-- Original-price chain: like the current chain but the text must also
differ from the already found current price. -/
def chainOriginalPrice (d : Doc) (current : String) : String :=
  let rec go : List String → String
    | [] => ""
    | sel :: rest =>
      let price := firstText d sel
      if price ≠ "" ∧ hasPriceToken price.data ∧ price ≠ current then price
      else go rest
  go originalPriceSelectors

/-- Discount chain: first selector whose trimmed text contains digits
followed by a percent sign. -/
def discountChain (d : Doc) : String :=
  let rec go : List String → String
    | [] => ""
    | sel :: rest =>
      let t := firstText d sel
      if t ≠ "" ∧ hasDigitPercent t.data then t else go rest
  go discountSelectors

/-- Span fallback of extractPricing: the first span whose trimmed text is a
full price shape shorter than 15 characters. -/
def spanPrice (d : Doc) : String :=
  match ((d.query "span").filter
      (fun n => spanFullPrice (jsTrim n.text) && (jsTrim n.text).length < 15)).head? with
  | some n => jsTrim n.text
  | none => ""

/-- Net current price after the chain and the span fallback. -/
def resolvedCurrent (d : Doc) : String :=
  if chainCurrentPrice d = "" then spanPrice d else chainCurrentPrice d

/-- Last truthy offers.price among the ld+json scripts (each script with a
price overwrites the previous one). -/
def lastLdPrice (d : Doc) : Option String :=
  ((d.query "script[type=\"application/ld+json\"]").filterMap Node.ldPrice).getLast?

/-- Pricing fields of the extracted record; absent fields are none, as the
source leaves them undefined. -/
structure Pricing where
  offerPrice : Option String := none
  originalPrice : Option String := none
  offerPercentage : Option String := none
  amountSaved : Option String := none
deriving DecidableEq, Repr

/-- Savings step of extractPricing: runs when both price fields are set and
differ as strings; parses both with non-numeric characters stripped, and
when the original exceeds the offer computes amountSaved via toFixed(2) and,
only when no discount text was found, the rounded percentage. -/
def savingsCalc (originalPrice offerPrice discount : Option String) :
    Option String × Option String :=
  match originalPrice, offerPrice with
  | some g, some o =>
    if g ≠ o then
      match jsParseFloat (stripToNumber g), jsParseFloat (stripToNumber o) with
      | some gq, some oq =>
        if oq < gq then
          (some (toFixed2 (gq - oq)),
           if discount = none then
             some (intStr (jsRound ((gq - oq) / gq * 100)) ++ "% off")
           else discount)
        else (none, discount)
      | some _, none => (none, discount)
      | none, _ => (none, discount)
    else (none, discount)
  | _, _ => (none, discount)

/-- Model of AmazonScraper.extractPricing.  Order matters: the original
chain compares against the chain current price only; the savings step runs
before the ld+json fallback, which fires only when neither the chain nor the
span produced a current price. -/
def extractPricing (d : Doc) : Pricing :=
  let chainCur := chainCurrentPrice d
  let origChain := chainOriginalPrice d chainCur
  let cur := resolvedCurrent d
  let offerPrice0 : Option String := if cur ≠ "" then some cur else none
  let originalPrice : Option String :=
    if origChain ≠ "" then some origChain else offerPrice0
  let discount0 : Option String :=
    let t := discountChain d
    if t ≠ "" then some t else none
  let sp := savingsCalc originalPrice offerPrice0 discount0
  let offerPrice :=
    if cur = "" then
      match lastLdPrice d with
      | some p => some p
      | none => offerPrice0
    else offerPrice0
  { offerPrice := offerPrice, originalPrice := originalPrice,
    offerPercentage := sp.2, amountSaved := sp.1 }

/-- Rating fields of the extracted record. -/
structure RatingInfo where
  rating : Option String := none
  ratingCount : Option String := none
deriving DecidableEq, Repr

/-- Rating value selector chain. -/
def ratingSelectors : List String :=
  [".a-icon-alt", "[data-cy=\"reviews-ratings-slot\"] .a-icon-alt",
   ".reviewCountTextLinkedHistogram .a-icon-alt", "#acrPopover .a-icon-alt"]

/-- Rating count selector chain. -/
def countSelectors : List String :=
  ["#acrCustomerReviewText", "[data-cy=\"reviews-ratings-slot\"] a[href*=\"reviews\"]",
   ".reviewCountTextLinkedHistogram a", "#averageCustomerReviews a"]

/-- First selector whose trimmed first-match text matches the rating regex,
returning the captured number. -/
def ratingFromChain (d : Doc) : List String → Option String
  | [] => none
  | sel :: rest =>
    match ratingMatch (firstText d sel).data with
    | some r => some r
    | none => ratingFromChain d rest

/-- First selector whose trimmed first-match text contains a digits-and-
commas group, returning the group as captured (commas kept). -/
def countFromChain (d : Doc) : List String → Option String
  | [] => none
  | sel :: rest =>
    match countMatch (firstText d sel).data with
    | some r => some r
    | none => countFromChain d rest

/-- Model of AmazonScraper.extractRating. -/
def extractRating (d : Doc) : RatingInfo :=
  { rating := ratingFromChain d ratingSelectors,
    ratingCount := countFromChain d countSelectors }

/-- Selector list of extractColors. -/
def colorSelectors : List String :=
  ["#variation_color_name li", ".a-button-thumbnail img", "[data-cy=\"color-name\"]",
   "#color_name_list li", ".swatches li"]

/-- Color name of one node: title attr, alt attr, trimmed text, nested img
alt, nested img title, in truthy-or preference order. -/
def colorNameOf (n : Node) : Option String :=
  jsOr (n.attr "title")
    (jsOr (n.attr "alt")
      (jsOr (some (jsTrim n.text))
        (jsOr ((n.children "img").head?.bind (fun b => b.attr "alt"))
          ((n.children "img").head?.bind (fun b => b.attr "title")))))

/-- Accumulation step of extractColors: push a truthy name longer than one
character that is not already collected. -/
def colorStep (acc : List String) (n : Node) : List String :=
  match colorNameOf n with
  | some c => if c ≠ "" ∧ ¬ acc.contains c ∧ c.length > 1 then acc ++ [c] else acc
  | none => acc

/-- Model of AmazonScraper.extractColors: a union over all selectors, then
capped at ten. -/
def extractColors (d : Doc) : List String :=
  (colorSelectors.foldl (fun acc sel => (d.query sel).foldl colorStep acc) []).take 10

/-- The source bullet marker (the mojibake three-character glyph that the
file stores for the bullet). -/
def bulletGlyph : String := "â€¢"

/-- The mojibake glyph excluded from technical values. -/
def emptyGlyph : String := "â€Ž"

/-- Selector list of extractAboutItem. -/
def aboutSelectors : List String :=
  ["#feature-bullets ul li span", "[data-cy=\"item-bullets\"] li",
   "#productDescription p", ".a-unordered-list.a-vertical.a-spacing-none li span"]

/-- Qualifying texts of one about selector: trimmed, longer than ten
characters, not mentioning see more. -/
def aboutItemsOf (d : Doc) (sel : String) : List String :=
  (d.query sel).foldl (fun acc n =>
    let t := jsTrim n.text
    if t ≠ "" ∧ t.length > 10 ∧ ¬ strContains (jsToLower t) "see more" then acc ++ [t]
    else acc) []

/-- About chain: stop at the first selector yielding items and join them
with the bullet marker. -/
def aboutChain (d : Doc) : List String → String
  | [] => ""
  | sel :: rest =>
    let items := aboutItemsOf d sel
    if items ≠ [] then String.intercalate ("\n" ++ bulletGlyph ++ " ") items
    else aboutChain d rest

/-- Model of AmazonScraper.extractAboutItem. -/
def extractAboutItem (d : Doc) : String :=
  let t := aboutChain d aboutSelectors
  if t ≠ "" then bulletGlyph ++ " " ++ t else ""

/-- Selector list of extractTechnicalData. -/
def techSelectors : List String :=
  ["#tech tbody tr", "#productDetails_detailBullets_sections1 tbody tr",
   "#productDetails_techSpec_section_1 tbody tr", ".a-keyvalue tbody tr"]

/-- Accumulation step of extractTechnicalData over one table row. -/
def techRowStep (acc : List String) (row : Node) : List String :=
  let label := rowFirstCell row
  let value := rowValueCell row
  if label ≠ "" ∧ value ≠ "" ∧ value ≠ "N/A" ∧ value ≠ "-" ∧ value ≠ emptyGlyph then
    acc ++ [label ++ ": " ++ value]
  else acc

/-- Model of AmazonScraper.extractTechnicalData.  The source iterates the
selector list with Array.prototype.forEach, whose callback returning false
does not stop the iteration, so every selector contributes rows despite the
stop-after-finding-data comment in the code. -/
def extractTechnicalData (d : Doc) : String :=
  String.intercalate "\n"
    (techSelectors.foldl (fun acc sel => (d.query sel).foldl techRowStep acc) [])

/-- An image entry of the extracted record. -/
structure Image where
  url : String
  alt : String
  downloaded : Bool
deriving DecidableEq, Repr

/-- Selector list of extractImages. -/
def imageSelectors : List String :=
  ["#altImages img", "#imageBlock img", ".a-dynamic-image", "#main-image",
   "[data-cy=\"product-image\"]"]

/-- Source attribute preference of extractImages. -/
def resolveSrc (n : Node) : Option String :=
  jsOr (n.attr "data-old-hires")
    (jsOr (n.attr "data-large-image-url")
      (jsOr (n.attr "data-src") (n.attr "src")))

/-- Match of the size-token regex \._[A-Z]{2}[0-9]+_ at the head of a list,
returning the rest after the match. -/
def sizeTokenAt : List Char → Option (List Char)
  | '.' :: '_' :: a :: b :: r =>
    if a.isUpper ∧ b.isUpper then
      let ds := r.takeWhile Char.isDigit
      let r2 := r.dropWhile Char.isDigit
      if ds.isEmpty then none
      else match r2 with
        | '_' :: r3 => some r3
        | _ => none
    else none
  | _ => none

/-- First replacement of extractImages: the leftmost size token becomes
._AC_SX500_. -/
def replaceSizeToken : List Char → List Char
  | [] => []
  | c :: rest =>
    match sizeTokenAt (c :: rest) with
    | some r => "._AC_SX500_".data ++ r
    | none => c :: replaceSizeToken rest

/-- Rest after the first dot of a list, none when there is no dot. -/
def dropToAfterDot : List Char → Option (List Char)
  | [] => none
  | '.' :: r => some r
  | _ :: r => dropToAfterDot r

/-- Second replacement of extractImages: the leftmost lazy match of
\._.*?\. becomes ._AC_SX500_. (dot kept). -/
def replaceDotUnderscore : List Char → List Char
  | [] => []
  | '.' :: '_' :: rest =>
    (match dropToAfterDot rest with
     | some after => "._AC_SX500_.".data ++ after
     | none => '.' :: replaceDotUnderscore ('_' :: rest))
  | c :: rest => c :: replaceDotUnderscore rest

/-- Both URL rewrites of extractImages in source order. -/
def rewriteImageUrl (s : String) : String :=
  String.mk (replaceDotUnderscore (replaceSizeToken s.data))

/-- Accumulation step of extractImages, carrying the seen-URL set (kept in
push order) alongside the image list. -/
def imageStep (st : List String × List Image) (n : Node) : List String × List Image :=
  match resolveSrc n with
  | some src0 =>
    if src0 ≠ "" then
      let src := rewriteImageUrl src0
      if ¬ st.1.contains src ∧ strContains src "amazon" ∧ ¬ strContains src "sprite" then
        (st.1 ++ [src],
         st.2 ++ [{ url := src,
                    alt := (jsOr (n.attr "alt")
                      (some ("Product image " ++ toString (st.2.length + 1)))).getD "",
                    downloaded := false }])
      else st
    else st
  | none => st

/-- Model of AmazonScraper.extractImages: a union over all selectors,
de-duplicated by URL, capped at six. -/
def extractImages (d : Doc) : List Image :=
  (imageSelectors.foldl (fun st sel => (d.query sel).foldl imageStep st) ([], [])).2.take 6

/-- Selector list of extractCategories. -/
def breadcrumbSelectors : List String :=
  ["#wayfinding-breadcrumbs_container a", ".a-breadcrumb a", "#nav-subnav a",
   "[data-cy=\"breadcrumb\"] a"]

/-- Accumulation step of extractCategories over one breadcrumb anchor. -/
def categoryStep (acc : List String) (n : Node) : List String :=
  let c := jsTrim n.text
  if c ≠ "" ∧ c.length > 2 ∧ ¬ strContains (jsToLower c) "amazon" ∧ ¬ acc.contains c then
    acc ++ [c]
  else acc

/-- Model of AmazonScraper.extractCategories.  As in extractTechnicalData,
the forEach callback returning false does not stop the selector iteration,
so later selectors still contribute despite the stop comment. -/
def extractCategories (d : Doc) : List String :=
  (breadcrumbSelectors.foldl (fun acc sel => (d.query sel).foldl categoryStep acc) []).take 5

/-- The extracted product record (the fields the extractor itself sets;
url, timestamps and the catalog id are assigned by the caller and are not
part of the extractor output). -/
structure ProductData where
  title : String := ""
  brand : String := ""
  model : String := ""
  asin : String := ""
  offerPrice : Option String := none
  originalPrice : Option String := none
  offerPercentage : Option String := none
  amountSaved : Option String := none
  rating : Option String := none
  ratingCount : Option String := none
  colors : List String := []
  aboutItem : String := ""
  technicalData : String := ""
  images : List Image := []
  categories : List String := []
  tags : List String := []
deriving DecidableEq, Repr

/-- Keyword-to-tag table of generateTags, in insertion order. -/
def keywordTagList : List (String × String) :=
  [("wireless", "Wireless"), ("bluetooth", "Bluetooth"), ("smart", "Smart Device"),
   ("premium", "Premium"), ("professional", "Professional"), ("portable", "Portable"),
   ("waterproof", "Waterproof"), ("rechargeable", "Rechargeable")]

/-- Truthiness-and-threshold test productData.rating &&
parseFloat(productData.rating) >= 4.0. -/
def ratingAtLeast4 (r : Option String) : Bool :=
  match r with
  | some s =>
    s ≠ "" &&
      (match jsParseFloat s with
       | some q => decide (4 ≤ q)
       | none => false)
  | none => false

/-- Deal tag derived from the discount text via parseInt: Great Deal at 50
or more, Good Deal at 20 or more, nothing otherwise or on NaN. -/
def dealTag (op : Option String) : List String :=
  match op with
  | some s =>
    if s ≠ "" then
      match jsParseInt s with
      | some n => if 50 ≤ n then ["Great Deal"] else if 20 ≤ n then ["Good Deal"] else []
      | none => []
    else []
  | none => []

/-- Model of AmazonScraper.generateTags: brand (if truthy) and Highly Rated
and the deal tag are pushed without a duplicate check; keyword tags check
membership before pushing; the list is capped at eight. -/
def generateTags (p : ProductData) : List String :=
  let tags0 := if p.brand ≠ "" then [p.brand] else []
  let tags1 := if ratingAtLeast4 p.rating then tags0 ++ ["Highly Rated"] else tags0
  let tags2 := tags1 ++ dealTag p.offerPercentage
  let titleLower := jsToLower p.title
  let tags3 := keywordTagList.foldl (fun acc kv =>
    if strContains titleLower kv.1 ∧ ¬ acc.contains kv.2 then acc ++ [kv.2] else acc) tags2
  tags3.take 8

/-- Record assembled by scrapeProduct before the tags field is filled. -/
def preRecord (d : Doc) (url : String) : ProductData :=
  let pricing := extractPricing d
  let ratingInfo := extractRating d
  { title := extractTitle d, brand := extractBrand d, model := extractModel d,
    asin := extractASIN d url,
    offerPrice := pricing.offerPrice, originalPrice := pricing.originalPrice,
    offerPercentage := pricing.offerPercentage, amountSaved := pricing.amountSaved,
    rating := ratingInfo.rating, ratingCount := ratingInfo.ratingCount,
    colors := extractColors d, aboutItem := extractAboutItem d,
    technicalData := extractTechnicalData d, images := extractImages d,
    categories := extractCategories d, tags := [] }

/-- The pure core of AmazonScraper.scrapeProduct: given the parsed document
and the source URL, the extracted record (fetching aside). -/
def extractProduct (d : Doc) (url : String) : ProductData :=
  let base := preRecord d url
  { base with tags := generateTags base }

/-- Outcome of the /api/scrape request validation. -/
inductive ScrapeOutcome where
  | badRequest (error : String)
  | scrape (url : String)
deriving DecidableEq, Repr

/-- HTTP status the validation phase itself produces: 400 for a rejected
request, none when the request proceeds to the scraper. -/
def ScrapeOutcome.status : ScrapeOutcome → Option Nat
  | .badRequest _ => some 400
  | .scrape _ => none

/-- Whether the scraper is invoked. -/
def ScrapeOutcome.invokesScraper : ScrapeOutcome → Bool
  | .badRequest _ => false
  | .scrape _ => true

/-- Model of the validation prefix of the POST /api/scrape handler: a
missing or falsy url is rejected with URL is required; a url without the
substring amazon. is rejected as not a valid Amazon product URL; otherwise
the scraper is invoked on the url. -/
def scrapeRoute (url : Option String) : ScrapeOutcome :=
  let u := url.getD ""
  if u = "" then .badRequest "URL is required"
  else if ¬ strContains u "amazon." then
    .badRequest "Please provide a valid Amazon product URL"
  else .scrape u

/-- Appending a fresh element keeps a list duplicate-free. -/
theorem nodup_append_of_not_contains {l : List String} {x : String}
    (h : l.Nodup) (hx : ¬ l.contains x) : (l ++ [x]).Nodup := by
  refine List.Nodup.append h (List.nodup_singleton x) ?_
  intro a ha hb
  rw [List.mem_singleton] at hb
  subst hb
  exact hx (List.elem_iff.mpr ha)

/-- A left fold whose step preserves a predicate preserves it overall. -/
theorem foldl_preserves {σ β : Type} (P : σ → Prop) (f : σ → β → σ)
    (hf : ∀ s b, P s → P (f s b)) :
    ∀ (l : List β) (s : σ), P s → P (l.foldl f s) := by
  intro l
  induction l with
  | nil => intro s h; exact h
  | cons b bs ih => intro s h; exact ih _ (hf s b h)

/-- Taking a prefix keeps a list duplicate-free. -/
theorem nodup_take {α : Type} {l : List α} (n : ℕ) (h : l.Nodup) :
    (l.take n).Nodup :=
  List.Nodup.sublist (List.take_sublist n l) h

/-- The color accumulation step keeps the list duplicate-free. -/
theorem colorStep_nodup (acc : List String) (n : Node) (h : acc.Nodup) :
    (colorStep acc n).Nodup := by
  unfold colorStep
  cases colorNameOf n with
  | none => exact h
  | some c =>
    dsimp only
    split_ifs with hc
    · exact nodup_append_of_not_contains h hc.2.1
    · exact h

/-- The category accumulation step keeps the list duplicate-free. -/
theorem categoryStep_nodup (acc : List String) (n : Node) (h : acc.Nodup) :
    (categoryStep acc n).Nodup := by
  unfold categoryStep
  dsimp only
  split_ifs with hc
  · exact nodup_append_of_not_contains h hc.2.2.2
  · exact h

/-- Invariant of the image fold: the seen list is exactly the URLs of the
collected images, in order, and has no duplicates. -/
def imgInv (st : List String × List Image) : Prop :=
  st.1 = st.2.map Image.url ∧ st.1.Nodup

/-- The image accumulation step preserves the invariant. -/
theorem imageStep_inv (st : List String × List Image) (n : Node)
    (h : imgInv st) : imgInv (imageStep st n) := by
  obtain ⟨h1, h2⟩ := h
  unfold imageStep
  cases resolveSrc n with
  | none => exact ⟨h1, h2⟩
  | some src0 =>
    dsimp only
    split_ifs with h3 h4
    · refine ⟨?_, nodup_append_of_not_contains h2 h4.1⟩
      simp [h1]
    · exact ⟨h1, h2⟩
    · exact ⟨h1, h2⟩

/-- The keyword-tag accumulation step keeps the list duplicate-free. -/
theorem keywordStep_nodup (t : String) (acc : List String) (kv : String × String)
    (h : acc.Nodup) :
    (if strContains t kv.1 ∧ ¬ acc.contains kv.2 then acc ++ [kv.2] else acc).Nodup := by
  split_ifs with hg
  · exact nodup_append_of_not_contains h hg.2
  · exact h

/-- The deal tag is empty or one of the two deal strings. -/
theorem dealTag_cases (op : Option String) :
    dealTag op = [] ∨ dealTag op = ["Great Deal"] ∨ dealTag op = ["Good Deal"] := by
  unfold dealTag
  cases op with
  | none => left; rfl
  | some s =>
    dsimp only
    split_ifs with h1
    · cases jsParseInt s with
      | none => left; rfl
      | some n =>
        dsimp only
        split_ifs
        · right; left; rfl
        · right; right; rfl
        · left; rfl
    · left; rfl

/-- Structural description of a successful URL-ASIN search: the capture has
ten uppercase alphanumeric characters and sits between two slashes in the
input. -/
theorem findUrlAsin_sound : ∀ (l s : List Char),
    findUrlAsin l = some s →
    s.length = 10 ∧ s.all isUpperAlnum ∧
      ∃ pre post, l = pre ++ '/' :: (s ++ '/' :: post) := by
  intro l
  induction l with
  | nil => intro s h; simp [findUrlAsin] at h
  | cons c rest ih =>
    intro s h
    rw [findUrlAsin] at h
    split_ifs at h with hc
    · obtain ⟨hslash, hat⟩ := hc
      injection h with h
      subst h
      subst hslash
      unfold asinAt at hat
      simp only [Bool.and_eq_true, decide_eq_true_eq] at hat
      obtain ⟨⟨hlen, hall⟩, hhead⟩ := hat
      refine ⟨hlen, hall, [], ?_⟩
      rw [List.head?_eq_some_iff] at hhead
      obtain ⟨ys, hys⟩ := hhead
      refine ⟨ys, ?_⟩
      have htd := List.take_append_drop 10 rest
      rw [hys] at htd
      conv_lhs => rw [← htd]
      rfl
    · obtain ⟨h1, h2, pre, post, hdec⟩ := ih s h
      exact ⟨h1, h2, c :: pre, post, by rw [hdec]; rfl⟩

/-- A ten-character uppercase alphanumeric segment between two slashes is
always found by the URL-ASIN search. -/
theorem findUrlAsin_complete : ∀ (pre seg post : List Char),
    seg.length = 10 → seg.all isUpperAlnum = true →
    (findUrlAsin (pre ++ '/' :: (seg ++ '/' :: post))).isSome := by
  intro pre
  induction pre with
  | nil =>
    intro seg post h1 h2
    rw [List.nil_append, findUrlAsin]
    have hat : asinAt (seg ++ '/' :: post) = true := by
      unfold asinAt
      have ht : (seg ++ '/' :: post).take 10 = seg := List.take_left' h1
      have hd : (seg ++ '/' :: post).drop 10 = '/' :: post := List.drop_left' h1
      simp [ht, hd, h1, h2]
    simp [hat]
  | cons c pre ih =>
    intro seg post h1 h2
    rw [List.cons_append, findUrlAsin]
    split_ifs with hc
    · simp
    · exact ih seg post h1 h2

/-- Document with no match for any selector. -/
def emptyDoc : Doc := ⟨fun _ => []⟩

/-- Node carrying only text. -/
def mkTextNode (t : String) : Node := { text := t }

/-- Document whose current-price chain finds 10.00 dollars and whose
original-price chain finds 25.50 dollars. -/
def savingsDoc : Doc :=
  ⟨fun sel =>
    if sel = ".a-price.a-text-normal .a-offscreen" then [mkTextNode "$10.00"]
    else if sel = ".a-price.a-text-price .a-offscreen" then [mkTextNode "$25.50"]
    else []⟩

/-- Document where only the original-price chain matches while an ld+json
script supplies an offer price of 10: both price fields end up set with the
original above the offer, yet the savings step has already run. -/
def ldPriceDoc : Doc :=
  ⟨fun sel =>
    if sel = ".a-price.a-text-price .a-offscreen" then [mkTextNode "$20.00"]
    else if sel = "script[type=\"application/ld+json\"]" then
      [{ text := "x", ldPrice := some "10" }]
    else []⟩

/-- Document where only the current-price chain matches. -/
def offerOnlyDoc : Doc :=
  ⟨fun sel =>
    if sel = ".a-price.a-text-normal .a-offscreen" then [mkTextNode "$10.00"] else []⟩

/-- Document where only the original-price chain matches. -/
def originalOnlyDoc : Doc :=
  ⟨fun sel =>
    if sel = ".a-price.a-text-price .a-offscreen" then [mkTextNode "$20.00"] else []⟩

/-- Document whose brand node reads Highly Rated and whose rating is 4.5:
the generated tags repeat Highly Rated. -/
def brandCollisionDoc : Doc :=
  ⟨fun sel =>
    if sel = "#bylineInfo" then [mkTextNode "Highly Rated"]
    else if sel = ".a-icon-alt" then [mkTextNode "4.5 out of 5 stars"]
    else []⟩

/-- Document with the speaker title, rating 4.6 and a brand node reading
Highly Rated. -/
def speakerCollisionDoc : Doc :=
  ⟨fun sel =>
    if sel = "#bylineInfo" then [mkTextNode "Highly Rated"]
    else if sel = "#productTitle" then [mkTextNode "Premium Wireless Bluetooth Speaker"]
    else if sel = ".a-icon-alt" then [mkTextNode "4.6 out of 5 stars"]
    else []⟩

/-- Document with the speaker title and rating 4.6 only; the brand derives
from the title as Premium. -/
def speakerDoc : Doc :=
  ⟨fun sel =>
    if sel = "#productTitle" then [mkTextNode "Premium Wireless Bluetooth Speaker"]
    else if sel = ".a-icon-alt" then [mkTextNode "4.6 out of 5 stars"]
    else []⟩

/-- Document with the rating and rating-count texts of the spec example. -/
def ratingExampleDoc : Doc :=
  ⟨fun sel =>
    if sel = ".a-icon-alt" then [mkTextNode "4.5 out of 5 stars"]
    else if sel = "#acrCustomerReviewText" then [mkTextNode "1,234 ratings"]
    else []⟩

/-- Table row with one label cell and one value cell. -/
def specRow (l v : String) : Node :=
  { children := fun sel =>
      if sel = "td:first-child, th:first-child" then [{ text := l }]
      else if sel = "td:last-child, td:nth-child(2)" then [{ text := v }]
      else if sel = "td:last-child" then [{ text := v }]
      else [] }

/-- Document where the first technical selector yields one row and the
second selector yields another. -/
def twoTableDoc : Doc :=
  ⟨fun sel =>
    if sel = "#tech tbody tr" then [specRow "Weight" "2 kg"]
    else if sel = "#productDetails_detailBullets_sections1 tbody tr" then
      [specRow "Color" "Blue"]
    else []⟩

/-- Document where the first breadcrumb selector yields one category and
the second selector yields another. -/
def twoBreadcrumbDoc : Doc :=
  ⟨fun sel =>
    if sel = "#wayfinding-breadcrumbs_container a" then [mkTextNode "Electronics"]
    else if sel = ".a-breadcrumb a" then [mkTextNode "Computers"]
    else []⟩

/-- C1 (amended).  For every document whose offer price comes from the
selector chains or the span fallback (not the ld+json fallback) and whose
record carries both prices, differing as strings with the original parsing
strictly above the offer, amountSaved is the difference rendered with
exactly two decimal places, and, when no discount text was matched,
offerPercentage is the rounded percentage followed by the percent-off
suffix. -/
theorem c1_amount_saved (d : Doc) (o g : String) (gq oq : ℚ)
    (hcur : resolvedCurrent d ≠ "")
    (ho : (extractPricing d).offerPrice = some o)
    (hg : (extractPricing d).originalPrice = some g)
    (hne : g ≠ o)
    (hgq : jsParseFloat (stripToNumber g) = some gq)
    (hoq : jsParseFloat (stripToNumber o) = some oq)
    (hlt : oq < gq) :
    (extractPricing d).amountSaved = some (toFixed2 (gq - oq)) ∧
    (discountChain d = "" →
      (extractPricing d).offerPercentage =
        some (intStr (jsRound ((gq - oq) / gq * 100)) ++ "% off")) := by
  unfold extractPricing at ho hg ⊢
  dsimp only at ho hg ⊢
  rw [if_neg hcur] at ho
  rw [if_pos hcur] at ho
  injection ho with ho
  subst ho
  by_cases horig : chainOriginalPrice d (chainCurrentPrice d) = ""
  · rw [if_neg (by simpa using horig), if_pos hcur] at hg
    injection hg with hg
    exact absurd hg.symm hne
  · rw [if_pos horig] at hg
    injection hg with hg
    subst hg
    rw [if_pos horig, if_pos hcur]
    unfold savingsCalc
    dsimp only
    rw [if_pos hne, hgq, hoq]
    dsimp only
    rw [if_pos hlt]
    refine ⟨rfl, ?_⟩
    intro hdisc
    rw [hdisc]
    dsimp only
    rfl


/-- Evaluation of the parse of the witness original price (the rational
arithmetic is settled by norm_num because the rational operations are
irreducible to plain evaluation). -/
theorem parse_2550 : jsParseFloat (stripToNumber "$25.50") = some ((51 : ℚ) / 2) := by
  have h0 : jsParseFloat (stripToNumber "$25.50")
      = some ((1 : ℚ) * (((25 : ℕ) : ℚ) + ((50 : ℕ) : ℚ) / (10 : ℚ) ^ (2 : ℕ)) *
          (10 : ℚ) ^ (0 : ℤ)) := rfl
  rw [h0]
  norm_num

/-- Evaluation of the parse of the witness offer price. -/
theorem parse_1000 : jsParseFloat (stripToNumber "$10.00") = some ((10 : ℚ)) := by
  have h0 : jsParseFloat (stripToNumber "$10.00")
      = some ((1 : ℚ) * (((10 : ℕ) : ℚ) + ((0 : ℕ) : ℚ) / (10 : ℚ) ^ (2 : ℕ)) *
          (10 : ℚ) ^ (0 : ℤ)) := rfl
  rw [h0]
  norm_num

/-- Witness for C1: on savingsDoc the chains find 10.00 and 25.50 dollars,
and the record carries amountSaved 15.50 and offerPercentage 61 percent
off. -/
theorem c1_amount_saved_witness :
    (extractPricing savingsDoc).amountSaved = some (toFixed2 ((51 : ℚ) / 2 - 10)) ∧
    (discountChain savingsDoc = "" →
      (extractPricing savingsDoc).offerPercentage =
        some (intStr (jsRound (((51 : ℚ) / 2 - 10) / ((51 : ℚ) / 2) * 100)) ++ "% off")) :=
  c1_amount_saved savingsDoc "$10.00" "$25.50" ((51 : ℚ) / 2) 10
    (by decide) (by decide) (by decide) (by decide) parse_2550 parse_1000 (by norm_num)

/-- Evaluation of the parse of the counterexample original price. -/
theorem parse_2000 : jsParseFloat (stripToNumber "$20.00") = some ((20 : ℚ)) := by
  have h0 : jsParseFloat (stripToNumber "$20.00")
      = some ((1 : ℚ) * (((20 : ℕ) : ℚ) + ((0 : ℕ) : ℚ) / (10 : ℚ) ^ (2 : ℕ)) *
          (10 : ℚ) ^ (0 : ℤ)) := rfl
  rw [h0]
  norm_num

/-- Evaluation of the parse of the ld+json offer price. -/
theorem parse_10 : jsParseFloat (stripToNumber "10") = some ((10 : ℚ)) := by
  have h0 : jsParseFloat (stripToNumber "10")
      = some ((1 : ℚ) * (((10 : ℕ) : ℚ)) * (10 : ℚ) ^ (0 : ℤ)) := rfl
  rw [h0]
  norm_num

/-- Counterexample for C1 as stated: on ldPriceDoc the record carries an
offer price of 10 (from the ld+json fallback) and an original price of
20.00 dollars, the strings differ and the original parses strictly above
the offer and no discount text was matched, yet amountSaved and
offerPercentage are absent, because the savings step runs before the
ld+json fallback fills the offer price. -/
theorem c1_amount_saved_counterexample :
    (extractPricing ldPriceDoc).offerPrice = some "10" ∧
    (extractPricing ldPriceDoc).originalPrice = some "$20.00" ∧
    ("$20.00" : String) ≠ "10" ∧
    jsParseFloat (stripToNumber "$20.00") = some 20 ∧
    jsParseFloat (stripToNumber "10") = some 10 ∧ (10 : ℚ) < 20 ∧
    (extractPricing ldPriceDoc).amountSaved = none ∧
    discountChain ldPriceDoc = "" ∧
    (extractPricing ldPriceDoc).offerPercentage = none :=
  ⟨by decide, by decide, by decide, parse_2000, parse_10, by norm_num,
   by decide, by decide, by decide⟩

/-- C2 (amended).  Mirroring is one-directional: when a current price is
found (chain or span fallback) and the original chain yields nothing, the
found value fills both price fields; but when only the original chain
yields a value (no chain, span or ld+json offer), the record keeps
offerPrice absent rather than mirroring the original into it. -/
theorem c2_price_mirroring (d : Doc) :
    (resolvedCurrent d ≠ "" → chainOriginalPrice d (chainCurrentPrice d) = "" →
      (extractPricing d).offerPrice = some (resolvedCurrent d) ∧
      (extractPricing d).originalPrice = some (resolvedCurrent d)) ∧
    (chainCurrentPrice d = "" → spanPrice d = "" →
      chainOriginalPrice d (chainCurrentPrice d) ≠ "" → lastLdPrice d = none →
      (extractPricing d).offerPrice = none ∧
      (extractPricing d).originalPrice =
        some (chainOriginalPrice d (chainCurrentPrice d))) := by
  constructor
  · intro hcur horig
    unfold extractPricing
    dsimp only
    rw [if_neg hcur, if_pos hcur, if_neg (by simpa using horig)]
    exact ⟨rfl, rfl⟩
  · intro hchain hspan horig hld
    have hcur : resolvedCurrent d = "" := by
      unfold resolvedCurrent
      rw [if_pos hchain]
      exact hspan
    unfold extractPricing
    dsimp only
    rw [if_pos hcur, hld, if_neg (by simpa using hcur), if_pos horig]
    exact ⟨rfl, rfl⟩


/-- Witness for C2: the offer-only document mirrors 10.00 dollars into the
original price, and the original-only document keeps the offer price
absent. -/
theorem c2_price_mirroring_witness :
    ((extractPricing offerOnlyDoc).offerPrice = some (resolvedCurrent offerOnlyDoc) ∧
      (extractPricing offerOnlyDoc).originalPrice = some (resolvedCurrent offerOnlyDoc)) ∧
    ((extractPricing originalOnlyDoc).offerPrice = none ∧
      (extractPricing originalOnlyDoc).originalPrice =
        some (chainOriginalPrice originalOnlyDoc (chainCurrentPrice originalOnlyDoc))) :=
  ⟨(c2_price_mirroring offerOnlyDoc).1 (by decide) (by decide),
   (c2_price_mirroring originalOnlyDoc).2 (by decide) (by decide) (by decide) (by decide)⟩

/-- Counterexample for C2 as stated: on originalOnlyDoc exactly the
original chain matches (with 20.00 dollars) while the current chain, the
span fallback and the ld+json fallback yield nothing, yet the record does
not mirror that value into offerPrice, which stays absent. -/
theorem c2_price_mirroring_counterexample :
    chainCurrentPrice originalOnlyDoc = "" ∧
    chainOriginalPrice originalOnlyDoc (chainCurrentPrice originalOnlyDoc) = "$20.00" ∧
    (extractPricing originalOnlyDoc).originalPrice = some "$20.00" ∧
    (extractPricing originalOnlyDoc).offerPrice = none ∧
    (extractPricing originalOnlyDoc).offerPrice ≠ some "$20.00" := by
  refine ⟨?_, ?_, ?_, ?_, ?_⟩ <;> decide

/-- The color list never holds duplicates. -/
theorem extractColors_nodup (d : Doc) : (extractColors d).Nodup := by
  unfold extractColors
  apply nodup_take
  exact foldl_preserves List.Nodup _
    (fun _ _ h => foldl_preserves List.Nodup colorStep colorStep_nodup _ _ h)
    colorSelectors [] List.nodup_nil

/-- The category list never holds duplicates. -/
theorem extractCategories_nodup (d : Doc) : (extractCategories d).Nodup := by
  unfold extractCategories
  apply nodup_take
  exact foldl_preserves List.Nodup _
    (fun _ _ h => foldl_preserves List.Nodup categoryStep categoryStep_nodup _ _ h)
    breadcrumbSelectors [] List.nodup_nil

/-- The image fold keeps its invariant from the empty start. -/
theorem extractImages_inv (d : Doc) :
    imgInv (imageSelectors.foldl (fun st sel => (d.query sel).foldl imageStep st) ([], [])) :=
  foldl_preserves imgInv _
    (fun _ _ h => foldl_preserves imgInv imageStep imageStep_inv _ _ h)
    imageSelectors ([], []) ⟨rfl, List.nodup_nil⟩

/-- The image URLs never hold duplicates. -/
theorem extractImages_nodup (d : Doc) : ((extractImages d).map Image.url).Nodup := by
  obtain ⟨h1, h2⟩ := extractImages_inv d
  unfold extractImages
  rw [List.map_take, ← h1]
  exact nodup_take 6 h2

/-- The tag list is capped at eight. -/
theorem generateTags_length (p : ProductData) : (generateTags p).length ≤ 8 := by
  unfold generateTags
  exact List.length_take_le 8 _

/-- The tag list holds no duplicates as long as the brand is not itself one
of the unconditionally pushed derived tags. -/
theorem generateTags_nodup (p : ProductData)
    (hb1 : p.brand ≠ "Highly Rated") (hb2 : p.brand ≠ "Great Deal")
    (hb3 : p.brand ≠ "Good Deal") : (generateTags p).Nodup := by
  unfold generateTags
  dsimp only
  apply nodup_take
  apply foldl_preserves List.Nodup _
    (fun acc kv h => keywordStep_nodup (jsToLower p.title) acc kv h) keywordTagList
  rcases dealTag_cases p.offerPercentage with h | h | h <;> rw [h] <;> split_ifs <;>
    simp_all [List.nodup_append, List.Disjoint]

/-- C3 (amended).  For every document the extracted list fields respect
their caps and hold no duplicates — colors at most ten and duplicate-free,
images at most six and duplicate-free by URL, categories at most five and
duplicate-free — and tags are at most eight and duplicate-free provided the
extracted brand is not itself one of the unconditionally pushed derived
tags (Highly Rated, Great Deal, Good Deal), which the code pushes without a
duplicate check. -/
theorem c3_list_caps (d : Doc) (url : String) :
    ((extractProduct d url).colors.length ≤ 10 ∧ (extractProduct d url).colors.Nodup) ∧
    ((extractProduct d url).images.length ≤ 6 ∧
      ((extractProduct d url).images.map Image.url).Nodup) ∧
    ((extractProduct d url).categories.length ≤ 5 ∧
      (extractProduct d url).categories.Nodup) ∧
    ((extractProduct d url).tags.length ≤ 8 ∧
      ((extractProduct d url).brand ≠ "Highly Rated" ∧
        (extractProduct d url).brand ≠ "Great Deal" ∧
        (extractProduct d url).brand ≠ "Good Deal" →
        (extractProduct d url).tags.Nodup)) := by
  have hc : (extractProduct d url).colors = extractColors d := rfl
  have hi : (extractProduct d url).images = extractImages d := rfl
  have hk : (extractProduct d url).categories = extractCategories d := rfl
  have htg : (extractProduct d url).tags = generateTags (preRecord d url) := rfl
  have hbr : (extractProduct d url).brand = (preRecord d url).brand := rfl
  rw [hc, hi, hk, htg, hbr]
  refine ⟨⟨?_, extractColors_nodup d⟩, ⟨?_, extractImages_nodup d⟩,
    ⟨?_, extractCategories_nodup d⟩, ⟨generateTags_length _, ?_⟩⟩
  · exact List.length_take_le 10 _
  · exact List.length_take_le 6 _
  · exact List.length_take_le 5 _
  · intro hb
    exact generateTags_nodup _ hb.1 hb.2.1 hb.2.2

/-- Witness for C3: on the empty document the brand is empty, so the tag
list (like the color list) is duplicate-free. -/
theorem c3_list_caps_witness :
    (extractProduct emptyDoc "u").colors.Nodup ∧
    (extractProduct emptyDoc "u").tags.Nodup :=
  ⟨(c3_list_caps emptyDoc "u").1.2,
   (c3_list_caps emptyDoc "u").2.2.2.2 (by refine ⟨?_, ?_, ?_⟩ <;> decide)⟩

/-- Evaluation of the rating threshold at the string 4.5. -/
theorem ratingAtLeast4_45 : ratingAtLeast4 (some "4.5") = true := by
  unfold ratingAtLeast4
  dsimp only
  have h : jsParseFloat "4.5"
      = some ((1 : ℚ) * (((4 : ℕ) : ℚ) + ((5 : ℕ) : ℚ) / (10 : ℚ) ^ (1 : ℕ)) *
          (10 : ℚ) ^ (0 : ℤ)) := rfl
  rw [h]
  dsimp only
  simp only [Bool.and_eq_true, decide_eq_true_eq]
  exact ⟨by decide, by norm_num⟩

/-- Counterexample for C3 as stated: on brandCollisionDoc the extracted
brand is Highly Rated and the rating is 4.5, so the tag list repeats
Highly Rated. -/
theorem c3_list_caps_counterexample :
    (extractProduct brandCollisionDoc "u").tags = ["Highly Rated", "Highly Rated"] ∧
    ¬ (extractProduct brandCollisionDoc "u").tags.Nodup := by
  have htg : (extractProduct brandCollisionDoc "u").tags
      = generateTags (preRecord brandCollisionDoc "u") := rfl
  have hpre : preRecord brandCollisionDoc "u"
      = { brand := "Highly Rated", rating := some "4.5" } := by decide
  have hgt : generateTags { brand := "Highly Rated", rating := some "4.5" }
      = ["Highly Rated", "Highly Rated"] := by
    unfold generateTags
    dsimp only
    rw [ratingAtLeast4_45]
    decide
  refine ⟨?_, ?_⟩
  · rw [htg, hpre]
    exact hgt
  · rw [htg, hpre, hgt]
    decide

/-- Data decomposition of a string equality used to move between string and
character-list views of URL splits. -/
theorem string_eq_of_data (u : String) (l : List Char) (h : u.data = l) :
    u = String.mk l := by
  cases u
  cases h
  rfl

/-- C4 (amended).  On a document where no selector matches any node,
extraction completes (the model is total) and returns the record with every
field at its empty default, provided the source URL holds no ten-character
uppercase-alphanumeric segment between slashes; with such a segment the
asin field alone is taken from the URL. -/
theorem c4_empty_document (url : String)
    (h : ∀ a seg b : String, seg.length = 10 → seg.data.all isUpperAlnum = true →
      url ≠ a ++ "/" ++ seg ++ "/" ++ b) :
    extractProduct emptyDoc url = {} := by
  have hnone : findUrlAsin url.data = none := by
    cases hfa : findUrlAsin url.data with
    | none => rfl
    | some s =>
      obtain ⟨h1, h2, pre, post, hdec⟩ := findUrlAsin_sound _ _ hfa
      exfalso
      apply h (String.mk pre) (String.mk s) (String.mk post) h1 h2
      have hs : String.mk pre ++ "/" ++ String.mk s ++ "/" ++ String.mk post
          = String.mk (pre ++ '/' :: (s ++ '/' :: post)) := by
        apply string_eq_of_data
        simp
      rw [hs]
      exact string_eq_of_data url _ hdec
  have hasin : extractASIN emptyDoc url = "" := by
    unfold extractASIN
    rw [hnone]
    rfl
  have hsplit : extractProduct emptyDoc url = { asin := extractASIN emptyDoc url } := rfl
  rw [hsplit, hasin]

/-- Witness for C4: the bare host URL has no ten-character segment, so the
empty document extracts to the all-defaults record. -/
theorem c4_empty_document_witness : extractProduct emptyDoc "amazon.com" = {} := by
  refine c4_empty_document "amazon.com" ?_
  intro a seg b hlen _ heq
  have hlen2 := congrArg String.length heq
  have e1 : ("amazon.com" : String).length = 10 := rfl
  have e2 : ("/" : String).length = 1 := rfl
  simp [String.length_append, hlen, e1, e2] at hlen2
  omega

/-- Counterexample for C4 as stated: on the empty document with a URL
holding a ten-character uppercase-alphanumeric segment, the asin field is
taken from the URL and is not at its empty default. -/
theorem c4_empty_document_counterexample :
    (extractProduct emptyDoc "https://www.amazon.com/dp/B000000000/x").asin
      = "B000000000" ∧ ("B000000000" : String) ≠ "" := by
  refine ⟨?_, ?_⟩ <;> decide

/-- C5 (confirmed).  For every source URL holding a ten-character
uppercase-alphanumeric path segment between slashes, the extracted asin is
such a segment of the URL (the leftmost match), for every page content:
page attributes are never consulted when the URL yields a match. -/
theorem c5_asin_from_url (url a seg b : String)
    (hdec : url = a ++ "/" ++ seg ++ "/" ++ b)
    (hlen : seg.length = 10) (hchars : seg.data.all isUpperAlnum = true) :
    ∃ s : String, s.length = 10 ∧ s.data.all isUpperAlnum = true ∧
      (∃ a2 b2 : String, url = a2 ++ "/" ++ s ++ "/" ++ b2) ∧
      ∀ d : Doc, extractASIN d url = s := by
  have hdata : url.data = a.data ++ '/' :: (seg.data ++ '/' :: b.data) := by
    rw [hdec]
    simp
  have hsome : (findUrlAsin url.data).isSome := by
    rw [hdata]
    exact findUrlAsin_complete a.data seg.data b.data hlen hchars
  obtain ⟨s, hs⟩ := Option.isSome_iff_exists.mp hsome
  obtain ⟨h1, h2, pre, post, hd⟩ := findUrlAsin_sound _ _ hs
  refine ⟨String.mk s, h1, h2, ⟨String.mk pre, String.mk post, ?_⟩, ?_⟩
  · have hsplit : String.mk pre ++ "/" ++ String.mk s ++ "/" ++ String.mk post
        = String.mk (pre ++ '/' :: (s ++ '/' :: post)) := by
      apply string_eq_of_data
      simp
    rw [hsplit]
    exact string_eq_of_data url _ hd
  · intro d
    unfold extractASIN
    rw [hs]

/-- Witness for C5: the segment B08N5WRWNW of a concrete product URL is
extracted as the asin on the empty document. -/
theorem c5_asin_from_url_witness :
    ∃ s : String, s.length = 10 ∧ s.data.all isUpperAlnum = true ∧
      (∃ a2 b2 : String,
        "https://www.amazon.com/dp/B08N5WRWNW/ref=x" = a2 ++ "/" ++ s ++ "/" ++ b2) ∧
      ∀ d : Doc, extractASIN d "https://www.amazon.com/dp/B08N5WRWNW/ref=x" = s :=
  c5_asin_from_url "https://www.amazon.com/dp/B08N5WRWNW/ref=x"
    "https://www.amazon.com/dp" "B08N5WRWNW" "ref=x" (by decide) (by decide) (by decide)

/-- C6 (amended).  On the document whose first rating node reads 4.5 out of
5 stars and whose first count node reads 1,234 ratings, the extracted
rating is 4.5 and the extracted rating count is 1,234 — the captured group
keeps the comma, nothing strips it. -/
theorem c6_rating_example :
    (extractRating ratingExampleDoc).rating = some "4.5" ∧
    (extractRating ratingExampleDoc).ratingCount = some "1,234" := by
  refine ⟨?_, ?_⟩ <;> decide

/-- Counterexample for C6 as stated: the extracted rating count on that
document is not the comma-stripped 1234. -/
theorem c6_rating_example_counterexample :
    (extractRating ratingExampleDoc).ratingCount ≠ some "1234" := by
  decide

/-- C7 (code bug evaluated).  On a document where the first technical
selector already yields the row Weight: 2 kg, the row Color: Blue matched
only by the second selector still appears in the output: the forEach
callback returning false does not stop the selector iteration, although the
code comments say stop after finding data. -/
theorem c7_tech_rows_not_stopped :
    ((twoTableDoc.query "#tech tbody tr").foldl techRowStep []) = ["Weight: 2 kg"] ∧
    extractTechnicalData twoTableDoc = "Weight: 2 kg" ++ "\n" ++ "Color: Blue" := by
  refine ⟨?_, ?_⟩ <;> decide

/-- C8 (code bug evaluated).  On a document where the first breadcrumb
selector already yields Electronics, the category Computers matched only by
the second selector still appears: the forEach callback returning false
does not stop the selector iteration, although the code comments say stop
after finding categories. -/
theorem c8_categories_not_stopped :
    ((twoBreadcrumbDoc.query "#wayfinding-breadcrumbs_container a").foldl
        categoryStep []) = ["Electronics"] ∧
    extractCategories twoBreadcrumbDoc = ["Electronics", "Computers"] := by
  refine ⟨?_, ?_⟩ <;> decide

/-- Evaluation of the rating threshold at the string 4.6. -/
theorem ratingAtLeast4_46 : ratingAtLeast4 (some "4.6") = true := by
  unfold ratingAtLeast4
  dsimp only
  have h : jsParseFloat "4.6"
      = some ((1 : ℚ) * (((4 : ℕ) : ℚ) + ((6 : ℕ) : ℚ) / (10 : ℚ) ^ (1 : ℕ)) *
          (10 : ℚ) ^ (0 : ℤ)) := rfl
  rw [h]
  dsimp only
  simp only [Bool.and_eq_true, decide_eq_true_eq]
  exact ⟨by decide, by norm_num⟩

/-- Record shape of the C9 scenario: the speaker title, rating 4.6, no
discount, and an arbitrary brand. -/
def speakerRecord (b : String) : ProductData :=
  { brand := b,
    rating := some "4.6",
    offerPercentage := none,
    title := "Premium Wireless Bluetooth Speaker" }

/-- Tag derivation on the speaker record for an arbitrary brand other than
Highly Rated: the four expected tags are all present, the list is
duplicate-free and at most eight long. -/
theorem generateTags_speaker (b : String) (hb : b ≠ "Highly Rated") :
    "Wireless" ∈ generateTags (speakerRecord b) ∧
    "Bluetooth" ∈ generateTags (speakerRecord b) ∧
    "Premium" ∈ generateTags (speakerRecord b) ∧
    "Highly Rated" ∈ generateTags (speakerRecord b) ∧
    (generateTags (speakerRecord b)).Nodup ∧
    (generateTags (speakerRecord b)).length ≤ 8 := by
  unfold generateTags speakerRecord
  dsimp only
  rw [ratingAtLeast4_46]
  by_cases h0 : b = ""
  · subst h0; decide
  by_cases hW : b = "Wireless"
  · subst hW; decide
  by_cases hB : b = "Bluetooth"
  · subst hB; decide
  by_cases hP : b = "Premium"
  · subst hP; decide
  have ht : jsToLower "Premium Wireless Bluetooth Speaker"
      = "premium wireless bluetooth speaker" := rfl
  rw [if_pos h0, ht]
  have hW2 : ¬ ("Wireless" : String) = b := fun h => hW h.symm
  have hB2 : ¬ ("Bluetooth" : String) = b := fun h => hB h.symm
  have hP2 : ¬ ("Premium" : String) = b := fun h => hP h.symm
  simp only [keywordTagList, List.foldl_cons, List.foldl_nil]
  simp +decide [List.contains_cons, List.mem_cons, List.nodup_cons, dealTag,
    hb, hW, hB, hP, hW2, hB2, hP2, List.take]

/-- C9 (amended).  Every extracted record with the speaker title, rating
4.6 and no discount percentage derives tags containing Wireless, Bluetooth,
Premium and Highly Rated in discovery order, with no duplicates and at most
eight entries, provided the extracted brand is not itself the string Highly
Rated (which the code would push twice). -/
theorem c9_speaker_tags (d : Doc) (url : String)
    (ht : (extractProduct d url).title = "Premium Wireless Bluetooth Speaker")
    (hr : (extractProduct d url).rating = some "4.6")
    (hp : (extractProduct d url).offerPercentage = none)
    (hb : (extractProduct d url).brand ≠ "Highly Rated") :
    "Wireless" ∈ (extractProduct d url).tags ∧
    "Bluetooth" ∈ (extractProduct d url).tags ∧
    "Premium" ∈ (extractProduct d url).tags ∧
    "Highly Rated" ∈ (extractProduct d url).tags ∧
    (extractProduct d url).tags.Nodup ∧
    (extractProduct d url).tags.length ≤ 8 := by
  have e1 : (extractProduct d url).tags
      = generateTags { brand := (extractProduct d url).brand,
                       rating := (extractProduct d url).rating,
                       offerPercentage := (extractProduct d url).offerPercentage,
                       title := (extractProduct d url).title } := rfl
  rw [e1, ht, hr, hp]
  exact generateTags_speaker _ hb

/-- Witness for C9: on speakerDoc the brand derives from the title as
Premium and the four expected tags are present without duplicates. -/
theorem c9_speaker_tags_witness :
    "Wireless" ∈ (extractProduct speakerDoc "u").tags ∧
    "Bluetooth" ∈ (extractProduct speakerDoc "u").tags ∧
    "Premium" ∈ (extractProduct speakerDoc "u").tags ∧
    "Highly Rated" ∈ (extractProduct speakerDoc "u").tags ∧
    (extractProduct speakerDoc "u").tags.Nodup ∧
    (extractProduct speakerDoc "u").tags.length ≤ 8 :=
  c9_speaker_tags speakerDoc "u" (by decide) (by decide) (by decide) (by decide)

/-- Counterexample for C9 as stated: on speakerCollisionDoc the record has
the speaker title, rating 4.6 and no discount, yet its tags repeat Highly
Rated because the scraped brand is that very string. -/
theorem c9_speaker_tags_counterexample :
    (extractProduct speakerCollisionDoc "u").title
      = "Premium Wireless Bluetooth Speaker" ∧
    (extractProduct speakerCollisionDoc "u").rating = some "4.6" ∧
    (extractProduct speakerCollisionDoc "u").offerPercentage = none ∧
    (extractProduct speakerCollisionDoc "u").tags
      = ["Highly Rated", "Highly Rated", "Wireless", "Bluetooth", "Premium"] ∧
    ¬ (extractProduct speakerCollisionDoc "u").tags.Nodup := by
  have htg : (extractProduct speakerCollisionDoc "u").tags
      = generateTags (preRecord speakerCollisionDoc "u") := rfl
  have hpre : preRecord speakerCollisionDoc "u"
      = { brand := "Highly Rated", rating := some "4.6",
          title := "Premium Wireless Bluetooth Speaker" } := by decide
  have hgt : generateTags { brand := "Highly Rated", rating := some "4.6",
                            title := "Premium Wireless Bluetooth Speaker" }
      = ["Highly Rated", "Highly Rated", "Wireless", "Bluetooth", "Premium"] := by
    unfold generateTags
    dsimp only
    rw [ratingAtLeast4_46]
    decide
  refine ⟨by decide, by decide, by decide, ?_, ?_⟩
  · rw [htg, hpre]
    exact hgt
  · rw [htg, hpre, hgt]
    decide

/-- C10 (confirmed).  A POST body without a url is answered 400 with URL is
required and the scraper is not invoked; any url value lacking the
substring amazon. is answered 400 with a validation error and the scraper
is not invoked. -/
theorem c10_scrape_validation :
    (scrapeRoute none = ScrapeOutcome.badRequest "URL is required" ∧
      (scrapeRoute none).status = some 400 ∧
      (scrapeRoute none).invokesScraper = false) ∧
    ∀ u : String, strContains u "amazon." = false →
      ∃ e, scrapeRoute (some u) = ScrapeOutcome.badRequest e ∧
        (scrapeRoute (some u)).status = some 400 ∧
        (scrapeRoute (some u)).invokesScraper = false := by
  refine ⟨⟨rfl, rfl, rfl⟩, ?_⟩
  intro u hu
  unfold scrapeRoute
  dsimp only [Option.getD]
  by_cases h0 : u = ""
  · subst h0
    exact ⟨"URL is required", rfl, rfl, rfl⟩
  · rw [if_neg h0, if_pos (by simp [hu])]
    exact ⟨"Please provide a valid Amazon product URL", rfl, rfl, rfl⟩

/-- Witness for C10: a non-Amazon URL is rejected with status 400 without
invoking the scraper. -/
theorem c10_scrape_validation_witness :
    ∃ e, scrapeRoute (some "http://example.com/item") = ScrapeOutcome.badRequest e ∧
      (scrapeRoute (some "http://example.com/item")).status = some 400 ∧
      (scrapeRoute (some "http://example.com/item")).invokesScraper = false :=
  c10_scrape_validation.2 "http://example.com/item" (by decide)
